import Mathlib

/-!
Verification development for the glytrait repository.

This file gives a shallow embedding, in Lean 4, of the parts of glytrait
that the specification's claims are about:

* `src/glytrait/glycan.py` — the `NGlycan` structure model: fucose-skipping
  breadth-first traversal, N-glycan core detection and validation, and the
  complex/high-mannose/hybrid type classification.
* `src/src/glytrait/formula.py` — the trait-formula DSL: expression
  splitting, term parsing, the three formula-term kinds and their
  evaluation against a meta-property table, the two-phase
  initialize/calcu_trait evaluation engine, formula-file deconvolution and
  the formula loading policy.
* `src/glytrait/trait.py` — the older `TraitFormula` variant with validator
  based construction, the reserved `.` property and the coefficient suffix.

Python strings are embedded as `String` (with explicit `List Char`
computations mirroring Python's `str` methods), numpy/pandas numeric data
as `ℚ`, raised exceptions as `Except`, and pandas NaN as `Option.none`.
All definitions are executable and structurally recursive (the
breadth-first traversal carries its exact step count as fuel).
-/

namespace Glycan

/-- Monosaccharide type tags, the vocabulary produced by the repository's
`get_mono_comp` helper (the type-tag accessor of a residue, per the data
model): the residues actually named by `glycan.py` plus a catch-all for any
other residue name. -/
inductive Mono where
  | glc2NAc
  | man
  | gal
  | neu5Ac
  | fuc
  | other (s : String)
deriving DecidableEq, Repr

/-- The string name of a monosaccharide tag, as `get_mono_comp` returns it. -/
def monoName : Mono → String
  | .glc2NAc => "Glc2NAc"
  | .man => "Man"
  | .gal => "Gal"
  | .neu5Ac => "Neu5Ac"
  | .fuc => "Fuc"
  | .other s => s

/-- A glypy glycan: a rooted tree of monosaccharide nodes with ordered
children (glypy's `breadth_first_traversal` visits children in their
stored order). -/
inductive GTree where
  | node (comp : Mono) (children : List GTree)

mutual

/-- Number of nodes of a tree (termination measure for the traversal). -/
def GTree.size : GTree → Nat
  | .node _ cs => 1 + GTree.sizeL cs

/-- Number of nodes of a forest. -/
def GTree.sizeL : List GTree → Nat
  | [] => 0
  | t :: ts => GTree.size t + GTree.sizeL ts

end

/-- The ordered children of a node. -/
def GTree.children : GTree → List GTree
  | .node _ cs => cs

/-- The monosaccharide tag of a node. -/
def GTree.comp : GTree → Mono
  | .node c _ => c

/-- Breadth-first traversal of a queue of subtrees, as glypy's
`breadth_first_traversal` performs it: visit the head, enqueue its
children.  Each visited node is paired with a flag telling whether it is
the root of the whole glycan (the root has no link to a parent, every
other node has one; this is what `len(node.links)` depends on).  The
traversal visits every node of the queue's trees exactly once, so it runs
for exactly as many steps as there are nodes; the explicit fuel (always
called with that exact node count) makes the recursion structural, and the
fuel-exhausted fallback is never reached. -/
def bfsF : Nat → List (GTree × Bool) → List (GTree × Bool)
  | _, [] => []
  | 0, _ => []
  | fuel + 1, (t, r) :: rest =>
    (t, r) :: bfsF fuel (rest ++ t.children.map (fun c => (c, false)))

/-- Breadth-first traversal of a whole glycan, starting at its root; the
glycan's node count is exactly the number of visits. -/
def bfs (t : GTree) : List (GTree × Bool) :=
  bfsF (GTree.size t) [(t, true)]

/-- Number of links of a visited node: one per child, plus the link to the
parent for every node except the root (glypy `len(node.links)`). -/
def linkCount (p : GTree × Bool) : Nat :=
  p.1.children.length + (if p.2 then 0 else 1)

/-- The model of `NGlycan._breadth_first_traversal(skip=...)`: the
breadth-first traversal filtered to nodes whose monosaccharide name is not
in `skip`. -/
def traversal (skip : List String) (t : GTree) : List (GTree × Bool) :=
  (bfs t).filter (fun p => !skip.contains (monoName p.1.comp))

/-- Count of nodes with a given tag over the whole glycan, the model of
the derived `GlycanComposition` entry for that residue. -/
def cnt (c : Mono) (t : GTree) : Nat :=
  ((bfs t).map (fun p => p.1.comp)).count c

/-- Total number of monosaccharides of the glycan. -/
def totalN (t : GTree) : Nat :=
  (bfs t).length

/-- Whether the glycan's composition equals the bare N-glycan core
`{Man:3; Glc2NAc:2}`.  Composition equality means: 2 Glc2NAc, 3 Man, and
no other residues — equivalently those two counts plus a total of five
monosaccharides. -/
def compositionEqCore (t : GTree) : Bool :=
  cnt .glc2NAc t == 2 && cnt .man t == 3 && totalN t == 5

/-- The `should_be` list of `NGlycan._init_cores`. -/
def shouldBe : List String :=
  ["Glc2NAc", "Glc2NAc", "Man", "Man", "Man"]

/-- The core-collection loop of `NGlycan._init_cores`: walk the
fucose-skipping traversal, append each node whose name equals
`should_be[len(cores)]`, and stop once five cores are collected.  The
collected data is the core names (the source stores node ids and maps them
back to names for the check; only the names are used there). -/
def collectCoresAux : List (GTree × Bool) → List String → List String
  | [], acc => acc
  | p :: rest, acc =>
    let acc' :=
      if monoName p.1.comp = shouldBe.getD acc.length "" then
        acc ++ [monoName p.1.comp]
      else acc
    if acc'.length = 5 then acc' else collectCoresAux rest acc'

/-- The cores collected by `NGlycan._init_cores` for a glycan. -/
def collectCores (t : GTree) : List String :=
  collectCoresAux (traversal ["Fuc"] t) []

/-- Lexicographic (code-point) order on character lists, the order Python
uses to compare strings. -/
def lexLe : List Char → List Char → Bool
  | [], _ => true
  | _ :: _, [] => false
  | c :: cs, d :: ds =>
    if c.val < d.val then true
    else if c.val = d.val then lexLe cs ds
    else false

/-- Python's string `<=`. -/
def strLeB (a b : String) : Bool :=
  lexLe a.data b.data

/-- Insert into a sorted list (helper of the stable ascending sort that
models Python's `sorted`). -/
def insertLe {α : Type} (le : α → α → Bool) (a : α) : List α → List α
  | [] => [a]
  | b :: bs => if le a b then a :: b :: bs else b :: insertLe le a bs

/-- Stable ascending sort, the model of Python's `sorted`. -/
def insertionSort {α : Type} (le : α → α → Bool) : List α → List α
  | [] => []
  | a :: as => insertLe le a (insertionSort le as)

/-- The model of `NGlycan._check_cores`: the sorted core names must equal
`['Glc2NAc', 'Glc2NAc', 'Man', 'Man', 'Man']`; otherwise a `ValueError`
(the core-validation error) is raised. -/
def checkCores (cores : List String) : Bool :=
  insertionSort strLeB cores == shouldBe

/-- Whether `NGlycan.__attrs_post_init__` succeeds on a parsed tree, i.e.
core collection passes `_check_cores`. -/
def validCores (t : GTree) : Bool :=
  checkCores (collectCores t)

/-- The model of `NGlycan.is_bisecting`: skip two nodes of the
fucose-skipping traversal, and test whether the next node has exactly four
links.  `none` models the `StopIteration` crash when the traversal has
fewer than three nodes. -/
def isBisecting (t : GTree) : Option Bool :=
  match traversal ["Fuc"] t with
  | _ :: _ :: p :: _ => some (linkCount p == 4)
  | _ => none

/-- The three glycan types. -/
inductive GlycanType where
  | complex
  | highMannose
  | hybrid
deriving DecidableEq, Repr

/-- The model of the `NGlycan.type` property, following the source line by
line: bare core → complex; bisecting → complex; two Glc2NAc →
high-mannose; one of the two nodes after the first three of the
fucose-skipping traversal has a single link → complex; three Glc2NAc →
hybrid; otherwise complex.  `none` models the `StopIteration` crash when
the traversal is too short for the `next` calls. -/
def typeOf (t : GTree) : Option GlycanType :=
  if compositionEqCore t then some .complex
  else
    match isBisecting t with
    | none => none
    | some true => some .complex
    | some false =>
      if cnt .glc2NAc t = 2 then some .highMannose
      else
        match (traversal ["Fuc"] t).drop 3 with
        | n1 :: n2 :: _ =>
          if linkCount n1 = 1 ∨ linkCount n2 = 1 then some .complex
          else if cnt .glc2NAc t = 3 then some .hybrid
          else some .complex
        | _ => none

/-- The classification exactly as claim C1 words it, written as a total
function over glycans (positions are read with `getElem?`): (1) bare core
composition → Complex; (2) third node of the fucose-skipping BFS has
exactly 4 links → Complex; (3) two GlcNAc → HighMannose; (4) either of the
two nodes after the first three has exactly one link → Complex; (5) three
GlcNAc → Hybrid; (6) default Complex. -/
def claimTypeOf (t : GTree) : GlycanType :=
  let ns := traversal ["Fuc"] t
  if compositionEqCore t then .complex
  else if (ns.get? 2).map linkCount = some 4 then .complex
  else if cnt .glc2NAc t = 2 then .highMannose
  else if (ns.get? 3).map linkCount = some 1 ∨ (ns.get? 4).map linkCount = some 1 then
    .complex
  else if cnt .glc2NAc t = 3 then .hybrid
  else .complex

/-- The errors `NGlycan.from_string` construction can surface:
`StructureParseError` for unparseable notation, and the `ValueError` of
`_check_cores` (the distinct core-validation error) carrying the collected
core names. -/
inductive ConstructError where
  | parseError (s : String)
  | invalidCore (cores : List String)
deriving DecidableEq, Repr

/-- A successfully constructed `NGlycan`: the parsed tree together with
its validated cores. -/
structure NGlycan where
  tree : GTree
  cores : List String

/-- The model of constructing `NGlycan(...)` from an already parsed tree
(`__attrs_post_init__` → `_init_cores` → `_check_cores`). -/
def mkNGlycan (t : GTree) : Except ConstructError NGlycan :=
  let cores := collectCores t
  if checkCores cores then .ok ⟨t, cores⟩ else .error (.invalidCore cores)

/-- The model of `NGlycan.from_string`: the external glypy GlycoCT parser
is abstracted as a function `parse` returning `none` exactly when glypy
raises `GlycoCTError` (which `from_string` converts into
`StructureParseError`); a parsed tree then goes through core
detection/validation. -/
def fromString (parse : String → Option GTree) (s : String) :
    Except ConstructError NGlycan :=
  match parse s with
  | none => .error (.parseError s)
  | some t => mkNGlycan t

end Glycan

namespace Py

/-- Whether a character is whitespace for Python's `str.strip()`. -/
def isWS (c : Char) : Bool :=
  c = ' ' || c = '\t' || c = '\n' || c = '\r' || c = '\x0b' || c = '\x0c'

/-- Python `str.strip()` on a character list. -/
def trimL (l : List Char) : List Char :=
  ((l.dropWhile isWS).reverse.dropWhile isWS).reverse

/-- Python `str.strip()`. -/
def strip (s : String) : String :=
  ⟨trimL s.data⟩

/-- Python `str.strip(chars)`: drop characters of `cs` from both ends. -/
def stripChars (s : String) (cs : List Char) : String :=
  ⟨((s.data.dropWhile (cs.contains ·)).reverse.dropWhile (cs.contains ·)).reverse⟩

/-- Python `str.startswith`. -/
def startsWith (s pre : String) : Bool :=
  pre.data.isPrefixOf s.data

/-- Python `str.endswith`. -/
def endsWith (s suf : String) : Bool :=
  suf.data.isSuffixOf s.data

/-- Python `sub in s` (substring containment). -/
def contains (s sub : String) : Bool :=
  (List.range (s.data.length + 1)).any (fun i => sub.data.isPrefixOf (s.data.drop i))

/-- Python `str.split(sep)` on character lists, for a non-empty separator,
written with explicit fuel (always called with `fuel = l.length`, which
suffices) so that it is structurally recursive. -/
def splitOnF (sep : List Char) : Nat → List Char → List (List Char)
  | _, [] => [[]]
  | 0, l => [l]
  | fuel + 1, c :: rest =>
    if sep ≠ [] && sep.isPrefixOf (c :: rest) then
      [] :: splitOnF sep fuel ((c :: rest).drop sep.length)
    else
      match splitOnF sep fuel rest with
      | [] => [[c]]
      | r :: rs => (c :: r) :: rs

/-- Python `str.split(sep)` for a non-empty separator. -/
def split (s sep : String) : List String :=
  (splitOnF sep.data s.data.length s.data).map (fun l => ⟨l⟩)

/-- Python `str.count(sub)` for a non-empty `sub` (number of
non-overlapping occurrences, which is one less than the number of parts
`split` produces). -/
def count (s sub : String) : Nat :=
  (split s sub).length - 1

/-- Python `str.isdigit()` (ASCII digits). -/
def isdigit (s : String) : Bool :=
  !s.data.isEmpty && s.data.all (·.isDigit)

/-- Value of a string of decimal digits, Python `int(s)`. -/
def toNatDigits (l : List Char) : Nat :=
  l.foldl (fun a c => a * 10 + (c.toNat - '0'.toNat)) 0

/-- Python `int(s)` for a digit string. -/
def toNat (s : String) : Nat :=
  toNatDigits s.data

/-- A word character for the regex class `\w`. -/
def isWordChar (c : Char) : Bool :=
  c.isAlpha || c.isDigit || c = '_'

end Py

namespace FormulaPy

/-- Errors of the formula module: `FormulaParseError` (a subclass of
`FormulaError`), plain `FormulaError`, and Python `ValueError` for the
tuple-unpacking failures that the source does not catch. -/
inductive FormulaErr where
  | parseError (msg : String)
  | formulaError (msg : String)
  | valueError (msg : String)
deriving DecidableEq, Repr

/-- The comparison operators of `CompareTerm`. -/
inductive CmpOp where
  | eq
  | ne
  | gt
  | ge
  | lt
  | le
deriving DecidableEq, Repr

/-- The operator's source text. -/
def CmpOp.str : CmpOp → String
  | .eq => "=="
  | .ne => "!="
  | .gt => ">"
  | .ge => ">="
  | .lt => "<"
  | .le => "<="

/-- Whether the operator is one of the ordering operators
`{">", ">=", "<", "<="}`. -/
def CmpOp.isOrdering : CmpOp → Bool
  | .gt => true
  | .ge => true
  | .lt => true
  | .le => true
  | _ => false

/-- The literal a `CompareTerm` compares with: `int`, `bool` or `str`
(the value grammar allows only non-negative integers). -/
inductive TermValue where
  | vnum (n : Nat)
  | vbool (b : Bool)
  | vstr (s : String)
deriving DecidableEq, Repr

/-- Source text of a term value, as `CompareTerm.expr` prints it. -/
def valueRepr : TermValue → String
  | .vnum n => toString n
  | .vbool true => "True"
  | .vbool false => "False"
  | .vstr s => ⟨'\'' :: (s.data ++ ['\''])⟩

/-- The closed variant of the three `FormulaTerm` classes:
`ConstantTerm`, `NumericalTerm` and `CompareTerm`. -/
inductive FormulaTerm where
  | constant (value : Nat)
  | numerical (metaProperty : String)
  | compare (metaProperty : String) (op : CmpOp) (value : TermValue)
deriving DecidableEq, Repr

/-- The `expr` property of a formula term. -/
def FormulaTerm.expr : FormulaTerm → String
  | .constant v => toString v
  | .numerical mp => mp
  | .compare mp op v => mp ++ " " ++ op.str ++ " " ++ valueRepr v

/-- The model of `_is_sia_linkage_term`: the term expression contains
`"nE"` or `"nS"`. -/
def isSiaLinkageTerm (t : FormulaTerm) : Bool :=
  Py.contains t.expr "nE" || Py.contains t.expr "nS"

/-- A column of the meta-property table, carrying its pandas dtype:
numeric (integers and floats, embedded as `ℚ`), nullable boolean, or
categorical. -/
inductive MPCol where
  | numeric (vals : List ℚ)
  | boolean (vals : List Bool)
  | category (vals : List String)
deriving DecidableEq, Repr

/-- Whether the column dtype is `boolean` or `category`. -/
def MPCol.isBoolOrCat : MPCol → Bool
  | .boolean _ => true
  | .category _ => true
  | _ => false

/-- The meta-property table: a glycan index and named, typed columns. -/
structure MetaPropertyTable where
  index : List String
  cols : List (String × MPCol)

/-- Column lookup, `meta_property_table[name]`; `none` models the
`KeyError`. -/
def lookupCol (tbl : MetaPropertyTable) (name : String) : Option MPCol :=
  (tbl.cols.find? (fun c => c.1 == name)).map (·.2)

/-- Numeric comparison, `a op b` on `ℚ`. -/
def cmpQ (a : ℚ) : CmpOp → ℚ → Bool
  | .eq, b => a == b
  | .ne, b => a != b
  | .gt, b => decide (a > b)
  | .ge, b => decide (a ≥ b)
  | .lt, b => decide (a < b)
  | .le, b => decide (a ≤ b)

/-- Comparison of a numeric cell with the term literal.  Booleans compare
as 0/1 as pandas does; equality against a string is `False` elementwise
(an ordering comparison of a numeric column against a string would be a
pandas `TypeError`; it is modelled as all-`False`, and no claim exercises
it). -/
def cellCmpNum (a : ℚ) (op : CmpOp) : TermValue → Bool
  | .vnum n => cmpQ a op (n : ℚ)
  | .vbool b => cmpQ a op (if b then 1 else 0)
  | .vstr _ => match op with | .ne => true | _ => false

/-- Comparison of a boolean cell with the term literal.  Ordering
operators never reach this function: `CompareTerm.__call__` rejects them
for boolean columns before evaluating. -/
def cellCmpBool (a : Bool) (op : CmpOp) : TermValue → Bool
  | .vbool b => match op with | .eq => a == b | .ne => a != b | _ => false
  | .vnum n => cmpQ (if a then 1 else 0) op (n : ℚ)
  | .vstr _ => match op with | .ne => true | _ => false

/-- Comparison of a categorical cell with the term literal.  Ordering
operators never reach this function: `CompareTerm.__call__` rejects them
for categorical columns before evaluating. -/
def cellCmpStr (a : String) (op : CmpOp) : TermValue → Bool
  | .vstr s => match op with | .eq => a == s | .ne => a != s | _ => false
  | _ => match op with | .ne => true | _ => false

/-- Converts a boolean series to the `UInt8` 0/1 series the source
produces with `astype("UInt8")`. -/
def boolToQ (b : Bool) : ℚ :=
  if b then 1 else 0

/-- Elementwise comparison of a column against the term literal,
`eval(f"mp_s {operator} value")` followed by `astype("UInt8")`. -/
def MPCol.cmpSeries : MPCol → CmpOp → TermValue → List ℚ
  | .numeric vs, op, v => vs.map (fun a => boolToQ (cellCmpNum a op v))
  | .boolean vs, op, v => vs.map (fun a => boolToQ (cellCmpBool a op v))
  | .category vs, op, v => vs.map (fun a => boolToQ (cellCmpStr a op v))

/-- Evaluation of a formula term against a meta-property table: the
`__call__` methods of `ConstantTerm`, `NumericalTerm` and `CompareTerm`.
A `ConstantTerm` yields a constant series over the index; a
`NumericalTerm` returns its column, raising `FormulaError` when the
column is missing or has boolean/categorical dtype; a `CompareTerm`
raises `FormulaError` when the column is missing or when an ordering
operator meets a boolean/categorical column, and otherwise returns the
0/1 comparison series. -/
def evalTerm : FormulaTerm → MetaPropertyTable → Except FormulaErr (List ℚ)
  | .constant v, tbl => .ok (tbl.index.map (fun _ => (v : ℚ)))
  | .numerical mp, tbl =>
    match lookupCol tbl mp with
    | none => .error (.formulaError (mp ++ " is not in the meta-property table."))
    | some (.numeric vs) => .ok vs
    | some _ => .error (.formulaError "this dtype must be compared with a value.")
  | .compare mp op v, tbl =>
    match lookupCol tbl mp with
    | none => .error (.formulaError (mp ++ " is not in the meta-property table."))
    | some col =>
      if col.isBoolOrCat && op.isOrdering then
        .error (.formulaError "Cannot use an ordering operator with this meta property.")
      else .ok (col.cmpSeries op v)

/-- The strings scanned for by `_parse_term` to decide whether a term is a
comparison (the source's `operators` set). -/
def opStrings : List String :=
  ["==", "!=", ">", ">=", "<", "<="]

/-- The value conversion at the end of `_parse_term`: digits to `int`,
`True`/`False` to `bool`, anything else is unquoted. -/
def convValue (v : String) : TermValue :=
  if Py.isdigit v then .vnum (Py.toNat v)
  else if v = "True" then .vbool true
  else if v = "False" then .vbool false
  else .vstr (Py.stripChars (Py.stripChars v ['\'']) ['"'])

/-- Deterministic model of
`re.fullmatch(r"(\w+)\s*(==|!=|>|>=|<|<=)\s*(\d+|True|False|...quoted...)", s)`:
a maximal `\w+` group (the following operator cannot start with a word
character, so no backtracking can help), the longest matching operator
(backtracking over the ordered alternation reduces to longest-match here,
because a value never starts with `=`), and a value alternative that must
consume the rest of the string. -/
def matchCompare (s : String) : Option (String × CmpOp × String) :=
  let cs := s.data
  let prop := cs.takeWhile Py.isWordChar
  let rest := cs.drop prop.length
  if prop.isEmpty then none
  else
    let rest1 := rest.dropWhile Py.isWS
    let opParse : Option (CmpOp × List Char) :=
      if "==".data.isPrefixOf rest1 then some (.eq, rest1.drop 2)
      else if "!=".data.isPrefixOf rest1 then some (.ne, rest1.drop 2)
      else if ">=".data.isPrefixOf rest1 then some (.ge, rest1.drop 2)
      else if "<=".data.isPrefixOf rest1 then some (.le, rest1.drop 2)
      else if ">".data.isPrefixOf rest1 then some (.gt, rest1.drop 1)
      else if "<".data.isPrefixOf rest1 then some (.lt, rest1.drop 1)
      else none
    match opParse with
    | none => none
    | some (op, rest2) =>
      let v := rest2.dropWhile Py.isWS
      let quotedOk : Char → Bool := fun q =>
        match v with
        | c :: more =>
          c = q && !more.isEmpty && more.getLast? == some q &&
            more.dropLast.all (fun d => d.isAlpha || d = '-' || d = '_')
        | [] => false
      if !v.isEmpty && v.all Char.isDigit then some (⟨prop⟩, op, ⟨v⟩)
      else if v = "True".data || v = "False".data then some (⟨prop⟩, op, ⟨v⟩)
      else if quotedOk '\'' || quotedOk '"' then some (⟨prop⟩, op, ⟨v⟩)
      else none

/-- The model of `_parse_term`. -/
def _parse_term (expr : String) : Except FormulaErr FormulaTerm :=
  if Py.isdigit expr then .ok (.constant (Py.toNat (Py.stripChars expr ['(', ')'])))
  else if !(opStrings.any (fun op => Py.contains expr op)) then
    .ok (.numerical (Py.stripChars expr ['(', ')']))
  else if !(Py.startsWith expr "(" && Py.endsWith expr ")") then
    .error (.parseError "comparison terms must be in parentheses.")
  else
    match matchCompare (Py.stripChars expr ['(', ')']) with
    | none => .error (.parseError "invalid comparison term.")
    | some (mp, op, v) => .ok (.compare mp op (convValue v))

/-- Parsing of a list of term texts in order, failing at the first bad
term, as the list comprehension `[_parse_term(t) for t in term_exprs]`
does. -/
def parseTermList : List String → Except FormulaErr (List FormulaTerm)
  | [] => .ok []
  | s :: ss => do
    let t ← _parse_term s
    let ts ← parseTermList ss
    .ok (t :: ts)

/-- The model of `_parse_terms`: split on `*`, strip, parse each term. -/
def _parse_terms (expr : String) : Except FormulaErr (List FormulaTerm) :=
  parseTermList ((Py.split expr "*").map Py.strip)

/-- The model of `_split_formula_expression`: strip, require one `" = "`,
then classify the splitter as `//` (exactly one occurrence) or `/`
(exactly one occurrence), and return name, numerator text, splitter and
denominator text. -/
def _split_formula_expression (expr0 : String) :
    Except FormulaErr (String × String × String × String) :=
  let expr := Py.strip expr0
  if !(Py.contains expr " = ") then .error (.parseError "no eq separator.")
  else
    match Py.split expr " = " with
    | [name0, rest] =>
      let name := Py.strip name0
      if !(Py.contains rest "//") && !(Py.contains rest "/") then
        .error (.parseError "no slash.")
      else if Py.count rest "//" = 1 then
        match Py.split rest "//" with
        | [nu, de] => .ok (name, Py.strip nu, "//", Py.strip de)
        | _ => .error (.valueError "unpack")
      else if Py.count rest "/" = 1 then
        match Py.split rest "/" with
        | [nu, de] => .ok (name, Py.strip nu, "/", Py.strip de)
        | _ => .error (.valueError "unpack")
      else .error (.parseError "too many slashes.")
    | _ => .error (.parseError "misuse of eq for double eq.")

/-- The model of `_parse_formula_expression`: split the expression, parse
both term lists, and for the `//` splitter extend the numerator list with
the denominator terms. -/
def _parse_formula_expression (expr : String) :
    Except FormulaErr (String × List FormulaTerm × List FormulaTerm) := do
  let (name, nu, spl, de) ← _split_formula_expression expr
  let nums ← _parse_terms nu
  let dens ← _parse_terms de
  .ok (name, if spl = "//" then nums ++ dens else nums, dens)

/-- A pandas Series: an index and values. -/
structure Series where
  index : List String
  values : List ℚ
deriving DecidableEq, Repr

/-- The `TraitFormula` of `formula.py`: parsed state plus the cached
weight vectors of the initialized state. -/
structure TraitFormula where
  expression : String
  description : String
  name : String
  numerators : List FormulaTerm
  denominators : List FormulaTerm
  siaLinkage : Bool
  initialized : Bool
  numeratorArray : Series
  denominatorArray : Series
deriving DecidableEq, Repr

/-- The model of `TraitFormula(expression, description)` construction
(`__attrs_post_init__`): parse the expression into name and term lists and
derive the sia-linkage flag; weight vectors are not cached yet. -/
def mkTraitFormula (expression description : String) :
    Except FormulaErr TraitFormula := do
  let (name, nums, dens) ← _parse_formula_expression expression
  .ok { expression := expression, description := description, name := name,
        numerators := nums, denominators := dens,
        siaLinkage := (nums ++ dens).any isSiaLinkageTerm,
        initialized := false,
        numeratorArray := ⟨[], []⟩, denominatorArray := ⟨[], []⟩ }

/-- Row-wise product of term columns over an index of length `n`: the
model of `pd.concat(series_list, axis=1).prod(axis=1)` for columns aligned
to the same index (every term returns a series over the table's index; the
`getD` default is never taken for well-formed tables). -/
def seriesProd (n : Nat) (cols : List (List ℚ)) : List ℚ :=
  (List.range n).map (fun i => (cols.map (fun c => c.getD i 1)).prod)

/-- Evaluation of every term of a list against the table in order,
failing at the first bad term, as the list comprehension
`[term(meta_property_table) for term in terms]` does. -/
def evalTerms : List FormulaTerm → MetaPropertyTable → Except FormulaErr (List (List ℚ))
  | [], _ => .ok []
  | t :: ts, tbl => do
    let c ← evalTerm t tbl
    let cs ← evalTerms ts tbl
    .ok (c :: cs)

/-- The model of the static `TraitFormula._initialize`: evaluate every
term and take the row-wise product. -/
def _initialize (tbl : MetaPropertyTable) (terms : List FormulaTerm) :
    Except FormulaErr (List ℚ) := do
  let cols ← evalTerms terms tbl
  .ok (seriesProd tbl.index.length cols)

/-- The model of `TraitFormula.initialize`: cache both weight vectors
(indexed by the table's glycans) and mark the formula initialized. -/
def TraitFormula.initialize (f : TraitFormula) (tbl : MetaPropertyTable) :
    Except FormulaErr TraitFormula := do
  let nu ← _initialize tbl f.numerators
  let de ← _initialize tbl f.denominators
  .ok { f with numeratorArray := ⟨tbl.index, nu⟩,
               denominatorArray := ⟨tbl.index, de⟩,
               initialized := true }

/-- The abundance table: samples × glycans, fully numeric. -/
structure AbundanceTable where
  samples : List String
  columns : List String
  rows : List (List ℚ)

/-- Dot product, numpy `@`. -/
def dot (a b : List ℚ) : ℚ :=
  (List.zipWith (· * ·) a b).sum

/-- Errors `calcu_trait` can raise: the `RuntimeError` for an
uninitialized formula and the `AssertionError` of
`pd.testing.assert_index_equal`. -/
inductive CalcuErr where
  | notInitialized
  | indexMismatch
deriving DecidableEq, Repr

/-- The model of `TraitFormula.calcu_trait`: after the initialization and
index-alignment checks, each sample's numerator and denominator are dot
products of its abundance row with the cached weight vectors; a zero
denominator is replaced by NaN (`none`) before dividing, so that sample's
value is NaN and no division error occurs. -/
def TraitFormula.calcu_trait (f : TraitFormula) (ab : AbundanceTable) :
    Except CalcuErr (List (Option ℚ)) :=
  if !f.initialized then .error .notInitialized
  else if ab.columns ≠ f.numeratorArray.index then .error .indexMismatch
  else if ab.columns ≠ f.denominatorArray.index then .error .indexMismatch
  else
    .ok (ab.rows.map (fun row =>
      let den := dot row f.denominatorArray.values
      if den = 0 then none else some (dot row f.numeratorArray.values / den)))

/-- The model of `deconvolute_formula_file`, processing the file's lines
with the pending-description state: `@` lines start a description (error
if one is already pending), `$` lines complete a record (error if none is
pending), every other line is skipped, and a pending description at the
end of the file is an error. -/
def deconvAux : List String → Option String → Except FormulaErr (List (String × String))
  | [], none => .ok []
  | [], some d => .error (.formulaError ("No expression follows description " ++ d ++ "."))
  | line :: rest, st =>
    let l := Py.strip line
    if Py.startsWith l "@" then
      match st with
      | some d => .error (.formulaError ("No expression follows description " ++ d ++ "."))
      | none => deconvAux rest (some (Py.strip ⟨l.data.drop 1⟩))
    else if Py.startsWith l "$" then
      let e := Py.strip ⟨l.data.drop 1⟩
      match st with
      | none => .error (.formulaError ("No description before expression " ++ e ++ "."))
      | some d => do
        let restRecords ← deconvAux rest none
        .ok ((d, e) :: restRecords)
    else deconvAux rest st

/-- The entry point of `deconvolute_formula_file` over the file's lines. -/
def deconvolute_formula_file (lines : List String) :
    Except FormulaErr (List (String × String)) :=
  deconvAux lines none

/-- The record loop of `load_formulas_from_file`: build each formula,
raise `FormulaError` on a name already produced, and collect the rest. -/
def loadFromRecords : List (String × String) → List String →
    Except FormulaErr (List TraitFormula)
  | [], _ => .ok []
  | (d, e) :: rest, seen => do
    let f ← mkTraitFormula e d
    if seen.contains f.name then
      .error (.formulaError ("Duplicate formula name: " ++ f.name ++ "."))
    else do
      let fs ← loadFromRecords rest (f.name :: seen)
      .ok (f :: fs)

/-- The model of `load_formulas_from_file` (the generator consumed to a
list, as every caller in the repository consumes it): deconvolute the
file, then build the formulas while rejecting duplicate names. -/
def load_formulas_from_file (lines : List String) :
    Except FormulaErr (List TraitFormula) := do
  let records ← deconvolute_formula_file lines
  loadFromRecords records []

/-- The model of `load_formulas`.  The built-in formula files live in the
package's resources (not part of the sources under verification), so the
result of `load_default_formulas` is a parameter `defaults`; `userLines`
is the user file's content when a user file is given.  User formulas are
appended only when their name does not collide with a built-in name, and
formulas with the sia-linkage flag are dropped unless `siaLinkage` was
requested. -/
def load_formulas (defaults : List TraitFormula) (userLines : Option (List String))
    (siaLinkage : Bool) : Except FormulaErr (List TraitFormula) := do
  let withUser ←
    match userLines with
    | none => pure defaults
    | some lines => do
      let userFs ← load_formulas_from_file lines
      pure (defaults ++ userFs.filter (fun f => !((defaults.map (fun g => g.name)).contains f.name)))
  pure (if siaLinkage then withUser else withUser.filter (fun f => !f.siaLinkage))

end FormulaPy

namespace TraitPy

/-- The `basic_meta_properties` list of `trait.py`. -/
def basic_meta_properties : List String :=
  [".", "isComplex", "isHighMannose", "isHybrid", "isBisecting",
   "is1Antennary", "is2Antennary", "is3Antennary", "is4Antennary",
   "totalAntenna", "coreFuc", "antennaryFuc", "hasAntennaryFuc",
   "totalFuc", "hasFuc", "noFuc", "totalSia", "hasSia", "noSia",
   "totalMan", "totalGal"]

/-- The `sia_linkage_meta_properties` list of `trait.py`. -/
def sia_linkage_meta_properties : List String :=
  ["a23Sia", "a26Sia", "hasa23Sia", "hasa26Sia", "noa23Sia", "noa26Sia"]

/-- The `meta_properties` list of `trait.py`. -/
def meta_properties : List String :=
  basic_meta_properties ++ sia_linkage_meta_properties

/-- Errors of the `trait.py` module: attrs validator `ValueError`s,
`FormulaParseError`, and the `RuntimeError` of an uninitialized
`calcu_trait`. -/
inductive TraitErr where
  | valueError (msg : String)
  | parseError (msg : String)
  | runtimeError (msg : String)
deriving DecidableEq, Repr

/-- The `TraitFormula` of `trait.py`: descriptive fields, the two property
lists, the coefficient, and the state of the two-phase evaluation. -/
structure TraitFormula where
  description : String
  name : String
  numerator_properties : List String
  denominator_properties : List String
  coefficient : ℚ
  siaLinkage : Bool
  initialized : Bool
  numerator : List ℚ
  denominator : List ℚ
deriving DecidableEq, Repr

/-- The model of constructing `TraitFormula(...)` in `trait.py`: the attrs
validators run in field order — numerator properties must be non-empty,
known, and free of `"."`; denominator properties must be non-empty, known,
and must not combine `"."` with other properties; the coefficient must be
strictly positive (`attrs.validators.gt(0)`).  `__attrs_post_init__` then
derives the sia-linkage flag. -/
def mkTraitFormula (description name : String)
    (np dp : List String) (coefficient : ℚ) : Except TraitErr TraitFormula :=
  if np.isEmpty then
    .error (.valueError "numerator_properties cannot be empty.")
  else if np.any (fun p => !meta_properties.contains p) then
    .error (.valueError "numerator_properties contains invalid meta properties.")
  else if np.contains "." then
    .error (.valueError "the dot should not be used in the numerator.")
  else if dp.isEmpty then
    .error (.valueError "denominator_properties cannot be empty.")
  else if dp.any (fun p => !meta_properties.contains p) then
    .error (.valueError "denominator_properties contains invalid meta properties.")
  else if dp.contains "." && dp.length > 1 then
    .error (.valueError "the dot should not be used with other meta properties in the denominator.")
  else if coefficient ≤ 0 then
    .error (.valueError "coefficient must be greater than 0.")
  else
    .ok { description := description, name := name,
          numerator_properties := np, denominator_properties := dp,
          coefficient := coefficient,
          siaLinkage := (np ++ dp).any (fun p => sia_linkage_meta_properties.contains p),
          initialized := false, numerator := [], denominator := [] }

/-- The meta-property table consumed by `trait.py`'s `TraitFormula`: the
columns `build_meta_property_table` produces are booleans and counts,
embedded uniformly as numeric columns (booleans as 0/1, which is how the
`prod` aggregation treats them). -/
structure MetaTable where
  index : List String
  cols : List (String × List ℚ)

/-- Column lookup (`meta_property_table[p]`); a missing column would be a
pandas `KeyError`, modelled as an empty column and never reached for
formulas that passed the property validators against a full table. -/
def colVals (tbl : MetaTable) (p : String) : List ℚ :=
  ((tbl.cols.find? (fun c => c.1 == p)).map (fun c => c.2)).getD []

/-- The model of the static `TraitFormula._initialize` of `trait.py`: the
reserved property list `["."]` yields the all-ones vector
(`np.ones_like(index)`); any other list yields the row-wise product
`meta_property_table[properties].prod(axis=1)`. -/
def _initialize (tbl : MetaTable) (props : List String) : List ℚ :=
  if props.length = 1 && props.getD 0 "" == "." then
    List.replicate tbl.index.length 1
  else
    (List.range tbl.index.length).map
      (fun i => (props.map (fun p => (colVals tbl p).getD i 1)).prod)

/-- The model of `TraitFormula.initialize` of `trait.py`. -/
def TraitFormula.initialize (f : TraitFormula) (tbl : MetaTable) : TraitFormula :=
  { f with numerator := _initialize tbl f.numerator_properties,
           denominator := _initialize tbl f.denominator_properties,
           initialized := true }

/-- The model of `TraitFormula.calcu_trait` of `trait.py`: per-sample dot
products; if ANY sample's denominator is zero the whole result is the
all-zero vector (`np.zeros_like(numerator)`), otherwise every sample gets
`numerator / denominator * coefficient`. -/
def TraitFormula.calcu_trait (f : TraitFormula) (rows : List (List ℚ)) :
    Except TraitErr (List ℚ) :=
  if !f.initialized then .error (.runtimeError "TraitFormula is not initialized.")
  else
    let nums := rows.map (fun r => FormulaPy.dot r f.numerator)
    let dens := rows.map (fun r => FormulaPy.dot r f.denominator)
    if dens.any (fun d => d == 0) then .ok (nums.map (fun _ => 0))
    else .ok (List.zipWith (fun n d => n / d * f.coefficient) nums dens)

/-- Index of the last occurrence of a character in a list. -/
def lastIdxOf (c : Char) (l : List Char) : Option Nat :=
  match l.reverse.findIdx? (fun d => d == c) with
  | none => none
  | some k => some (l.length - 1 - k)

/-- Deterministic model of the backtracking match of
`\((.+)\) SLASH \((.+)\)` against the text following `NAME = (`: the
greedy first group picks the right-most separator occurrence whose tail
still lets `(.+)\)` match, i.e. whose tail has a `)` at position ≥ 1; the
greedy second group then extends to the last `)` of that tail (trailing
text is allowed, `re.match` does not anchor the end). -/
def findSplit (body : List Char) (sep : List Char) : Option (List Char × List Char) :=
  let cands := (List.range body.length).filter (fun i =>
    decide (1 ≤ i) && sep.isPrefixOf (body.drop i) &&
      (match lastIdxOf ')' (body.drop (i + sep.length)) with
       | some j => decide (1 ≤ j)
       | none => false))
  match cands.getLast? with
  | none => none
  | some i =>
    let tail := body.drop (i + sep.length)
    match lastIdxOf ')' tail with
    | some j => some (body.take i, tail.take j)
    | none => none

/-- The model of `re.match(r"(\w+) = \((.+)\) SLASH \((.+)\)", expr)`:
a maximal `\w+` name (the next pattern character is a space, so greedy
matching is deterministic), the literal `" = ("`, then the two
parenthesized groups via `findSplit`. -/
def matchPattern (expr : String) (sep : List Char) :
    Option (String × String × String) :=
  let cs := expr.data
  let name := cs.takeWhile Py.isWordChar
  let rest := cs.drop name.length
  if name.isEmpty then none
  else if !(" = (".data.isPrefixOf rest) then none
  else
    match findSplit (rest.drop 4) sep with
    | none => none
    | some (g2, g3) => some (⟨name⟩, ⟨g2⟩, ⟨g3⟩)

/-- The coefficient alternation `(\d+/\d+|\d+(\.\d+)?)` matched at one
position: greedy digits, then a fraction if a `/` and more digits follow,
a decimal if a `.` and more digits follow, the bare integer otherwise.
Python's `eval` of `"a/b"` is float division; the value is embedded
exactly in `ℚ`. -/
def matchCoefAt (l : List Char) : Option ℚ :=
  let d1 := l.takeWhile Char.isDigit
  if d1.isEmpty then none
  else
    match l.drop d1.length with
    | '/' :: r2 =>
      let d2 := r2.takeWhile Char.isDigit
      if d2.isEmpty then some ((Py.toNatDigits d1 : ℚ))
      else some ((Py.toNatDigits d1 : ℚ) / (Py.toNatDigits d2 : ℚ))
    | '.' :: r2 =>
      let d3 := r2.takeWhile Char.isDigit
      if d3.isEmpty then some ((Py.toNatDigits d1 : ℚ))
      else some ((Py.toNatDigits d1 : ℚ) + (Py.toNatDigits d3 : ℚ) / ((10 : ℚ) ^ d3.length))
    | _ => some ((Py.toNatDigits d1 : ℚ))

/-- The model of `re.search(r"\) \* (\d+/\d+|\d+(\.\d+)?)", expr)`:
the left-most position where `") * "` is followed by a matching
coefficient. -/
def searchCoef (cs : List Char) : Option ℚ :=
  (List.range cs.length).findSome? (fun i =>
    if ") * ".data.isPrefixOf (cs.drop i) then matchCoefAt (cs.drop (i + 4)) else none)

/-- A property string rejected by the `re.search(r"\W", prop)` check of
`_parse_expression`: it contains a non-word character and is not the
reserved `"."`. -/
def invalidProp (p : String) : Bool :=
  p.data.any (fun c => !Py.isWordChar c) && p != "."

/-- The model of `_parse_expression` of `trait.py`: pick the `//` pattern
when the expression contains `//` and the `/` pattern otherwise; split
both groups on `*` and strip; reject properties with non-word characters
(other than `"."`); with `//` the denominator properties are appended to
the numerator properties; the coefficient is parsed from a `") *"` suffix
and defaults to 1. -/
def _parse_expression (expr : String) :
    Except TraitErr (String × List String × List String × ℚ) :=
  let dbl := Py.contains expr "//"
  let sep := if dbl then ") // (".data else ") / (".data
  match matchPattern expr sep with
  | none => .error (.parseError expr)
  | some (name, numS, denS) =>
    let numP := (Py.split numS "*").map Py.strip
    let denP := (Py.split denS "*").map Py.strip
    if (numP ++ denP).any invalidProp then .error (.parseError expr)
    else
      let numP' := if dbl then numP ++ denP else numP
      match (if Py.contains expr ") *" then searchCoef expr.data else some 1) with
      | none => .error (.parseError expr)
      | some coef => .ok (name, numP', denP, coef)

end TraitPy

namespace Spec

/-- Whether an `Except` computation succeeded. -/
def isOkB {ε α : Type} : Except ε α → Bool
  | .ok _ => true
  | .error _ => false

/-- A formula-file line that `deconvolute_formula_file` acts on: after
stripping, it begins with `@` or `$`. -/
def isMarked (l : String) : Bool :=
  Py.startsWith (Py.strip l) "@" || Py.startsWith (Py.strip l) "$"

/-- The sequence of markers of a formula file: `true` for a description
(`@`) line, `false` for an expression (`$`) line, other lines dropped. -/
def marks (lines : List String) : List Bool :=
  lines.filterMap (fun l =>
    if Py.startsWith (Py.strip l) "@" then some true
    else if Py.startsWith (Py.strip l) "$" then some false
    else none)

/-- Whether a marker sequence is a well-formed formula file, given whether
a description is already pending: descriptions and expressions must
alternate exactly one-to-one, starting with a description and ending with
an expression.  The sequence is rejected exactly on a description
following a pending description, an expression with no pending
description, or a pending description at the end. -/
def okPatternFrom : Bool → List Bool → Bool
  | pending, [] => !pending
  | pending, true :: rest => if pending then false else okPatternFrom true rest
  | pending, false :: rest => if pending then okPatternFrom false rest else false

/-- A glycan consisting of exactly the N-glycan core:
GlcNAc–GlcNAc–Man(Man)(Man). -/
def coreTree : Glycan.GTree :=
  .node .glc2NAc [.node .glc2NAc [.node .man [.node .man [], .node .man []]]]

/-- A concrete initialized formula for exercising `calcu_trait`. -/
def formulaC2 : FormulaPy.TraitFormula :=
  { expression := "", description := "", name := "T",
    numerators := [], denominators := [],
    siaLinkage := false, initialized := true,
    numeratorArray := ⟨["G1", "G2"], [1, 0]⟩,
    denominatorArray := ⟨["G1", "G2"], [0, 1]⟩ }

/-- A concrete abundance table whose first sample dots to zero against
`formulaC2`'s denominator weights. -/
def abTableC2 : FormulaPy.AbundanceTable :=
  ⟨["S1", "S2"], ["G1", "G2"], [[10, 0], [2, 3]]⟩

/-- A concrete meta-property table with numeric columns. -/
def mpTableC4 : FormulaPy.MetaPropertyTable :=
  ⟨["G1", "G2"], [("isComplex", .numeric [1, 0]), ("isHighMannose", .numeric [0, 1])]⟩

/-- A concrete built-in formula named `A` (collides with the user file's
first formula below). -/
def builtinC5 : FormulaPy.TraitFormula :=
  { expression := "A = (totalMan) / (totalSia)", description := "builtin",
    name := "A", numerators := [.numerical "totalMan"],
    denominators := [.numerical "totalSia"],
    siaLinkage := false, initialized := false,
    numeratorArray := ⟨[], []⟩, denominatorArray := ⟨[], []⟩ }

/-- A concrete user formula file defining `A` (a name collision) and `C`. -/
def userLinesC5 : List String :=
  ["@ user a", "$ A = (totalFuc) / (totalSia)", "@ user c", "$ C = (totalGal) / (totalSia)"]

/-- The first user formula of `userLinesC5` (name `A`, colliding with the
built-in). -/
def userA5 : FormulaPy.TraitFormula :=
  { expression := "A = (totalFuc) / (totalSia)", description := "user a",
    name := "A", numerators := [.numerical "totalFuc"],
    denominators := [.numerical "totalSia"],
    siaLinkage := false, initialized := false,
    numeratorArray := ⟨[], []⟩, denominatorArray := ⟨[], []⟩ }

/-- The second user formula of `userLinesC5` (fresh name `C`). -/
def userC5 : FormulaPy.TraitFormula :=
  { expression := "C = (totalGal) / (totalSia)", description := "user c",
    name := "C", numerators := [.numerical "totalGal"],
    denominators := [.numerical "totalSia"],
    siaLinkage := false, initialized := false,
    numeratorArray := ⟨[], []⟩, denominatorArray := ⟨[], []⟩ }

/-- A concrete formula file with two records both named `A`. -/
def linesC6 : List String :=
  ["@ d1", "$ A = (totalMan) / (totalSia)", "@ d2", "$ A = (totalFuc) / (totalSia)"]

/-- The first record of `linesC6` as a parsed formula. -/
def fA1 : FormulaPy.TraitFormula :=
  { expression := "A = (totalMan) / (totalSia)", description := "d1",
    name := "A", numerators := [.numerical "totalMan"],
    denominators := [.numerical "totalSia"],
    siaLinkage := false, initialized := false,
    numeratorArray := ⟨[], []⟩, denominatorArray := ⟨[], []⟩ }

/-- Parsing of all records of a formula file in order, ignoring the
duplicate-name check (used to state when all records of a file are
individually parseable). -/
def parseRecords : List (String × String) →
    Except FormulaPy.FormulaErr (List FormulaPy.TraitFormula)
  | [] => .ok []
  | (d, e) :: rest => do
    let f ← FormulaPy.mkTraitFormula e d
    let fs ← parseRecords rest
    .ok (f :: fs)

/-- The second record of `linesC6` as a parsed formula (same name `A`). -/
def fA2 : FormulaPy.TraitFormula :=
  { expression := "A = (totalFuc) / (totalSia)", description := "d2",
    name := "A", numerators := [.numerical "totalFuc"],
    denominators := [.numerical "totalSia"],
    siaLinkage := false, initialized := false,
    numeratorArray := ⟨[], []⟩, denominatorArray := ⟨[], []⟩ }

/-- A concrete meta-property table with one categorical column. -/
def tblC8 : FormulaPy.MetaPropertyTable :=
  ⟨["G1"], [("gtype", .category ["complex"])]⟩

/-- A concrete initialized `trait.py` formula with coefficient 3. -/
def formulaC9 : TraitPy.TraitFormula :=
  { description := "", name := "R",
    numerator_properties := ["totalMan"], denominator_properties := ["totalSia"],
    coefficient := 3, siaLinkage := false, initialized := true,
    numerator := [2], denominator := [1] }

end Spec

theorem isOkB_bind_const {ε α β : Type} (x : Except ε α) (f : α → β) :
    Spec.isOkB (do let a ← x; Except.ok (f a)) = Spec.isOkB x := by
  cases x <;> rfl

theorem deconvAux_filter_eq (lines : List String) (st : Option String) :
    FormulaPy.deconvAux lines st = FormulaPy.deconvAux (lines.filter Spec.isMarked) st := by
  induction lines generalizing st with
  | nil => rfl
  | cons line rest ih =>
    by_cases h1 : Py.startsWith (Py.strip line) "@"
    · have hm : Spec.isMarked line = true := by simp [Spec.isMarked, h1]
      cases st with
      | none => simp [FormulaPy.deconvAux, List.filter_cons, hm, h1, ih]
      | some d => simp [FormulaPy.deconvAux, List.filter_cons, hm, h1]
    · by_cases h2 : Py.startsWith (Py.strip line) "$"
      · have hm : Spec.isMarked line = true := by simp [Spec.isMarked, h2]
        cases st with
        | none => simp [FormulaPy.deconvAux, List.filter_cons, hm, h1, h2]
        | some d => simp [FormulaPy.deconvAux, List.filter_cons, hm, h1, h2, ih]
      · have hm : Spec.isMarked line = false := by simp [Spec.isMarked, h1, h2]
        simp [FormulaPy.deconvAux, List.filter_cons, hm, h1, h2, ih]

theorem deconvAux_isOk (lines : List String) (st : Option String) :
    Spec.isOkB (FormulaPy.deconvAux lines st) =
      Spec.okPatternFrom st.isSome (Spec.marks lines) := by
  induction lines generalizing st with
  | nil => cases st <;> rfl
  | cons line rest ih =>
    by_cases h1 : Py.startsWith (Py.strip line) "@"
    · cases st with
      | none =>
        simp [FormulaPy.deconvAux, Spec.marks, h1, Spec.okPatternFrom]
        simpa [Spec.marks] using ih (some (Py.strip ⟨(Py.strip line).data.drop 1⟩))
      | some d => simp [FormulaPy.deconvAux, Spec.marks, h1, Spec.okPatternFrom, Spec.isOkB]
    · by_cases h2 : Py.startsWith (Py.strip line) "$"
      · cases st with
        | none => simp [FormulaPy.deconvAux, Spec.marks, h1, h2, Spec.okPatternFrom, Spec.isOkB]
        | some d =>
          simp only [FormulaPy.deconvAux, h1, h2, if_true, if_false, Bool.false_eq_true]
          rw [isOkB_bind_const]
          simpa [Spec.marks, h1, h2, Spec.okPatternFrom] using ih none
      · simp only [FormulaPy.deconvAux, h1, h2, if_false, Bool.false_eq_true]
        rw [ih st]
        simp [Spec.marks, h1, h2]

/-- C10: every line of a formula file that (after stripping) begins with
neither `@` nor `$` is ignored wherever it occurs — deconvolution is
unchanged by removing all such lines — and deconvolution succeeds exactly
when the `@`/`$` markers alternate one-to-one starting with `@`, i.e. a
format error arises only from a description followed by another
description, an expression without a pending description, or a dangling
description at the end of the file. -/
theorem claim_C10_unmarked_lines_ignored :
    (∀ lines : List String,
        FormulaPy.deconvolute_formula_file lines =
          FormulaPy.deconvolute_formula_file (lines.filter Spec.isMarked)) ∧
    (∀ lines : List String,
        Spec.isOkB (FormulaPy.deconvolute_formula_file lines) =
          Spec.okPatternFrom false (Spec.marks lines)) := by
  constructor
  · intro lines
    exact deconvAux_filter_eq lines none
  · intro lines
    simpa using deconvAux_isOk lines none

/-- C2: for an initialized formula and an abundance table whose columns
equal the cached weight vectors' index, `calcu_trait` returns (without any
error) one value per sample; a sample whose row dots to zero against the
denominator weights gets the NaN marker, every other sample gets the ratio
of the two dot products. -/
theorem claim_C2_calcu_trait_nan (f : FormulaPy.TraitFormula)
    (ab : FormulaPy.AbundanceTable)
    (hinit : f.initialized = true)
    (hnum : ab.columns = f.numeratorArray.index)
    (hden : ab.columns = f.denominatorArray.index) :
    ∃ vs, f.calcu_trait ab = .ok vs ∧ vs.length = ab.rows.length ∧
      ∀ (i : Nat) (row : List ℚ), ab.rows[i]? = some row →
        (FormulaPy.dot row f.denominatorArray.values = 0 → vs[i]? = some none) ∧
        (FormulaPy.dot row f.denominatorArray.values ≠ 0 →
          vs[i]? = some (some (FormulaPy.dot row f.numeratorArray.values /
            FormulaPy.dot row f.denominatorArray.values))) := by
  refine ⟨ab.rows.map (fun row =>
      if FormulaPy.dot row f.denominatorArray.values = 0 then none
      else some (FormulaPy.dot row f.numeratorArray.values /
        FormulaPy.dot row f.denominatorArray.values)), ?_, ?_, ?_⟩
  · simp [FormulaPy.TraitFormula.calcu_trait, hinit, ← hnum, ← hden]
  · simp
  · intro i row hrow
    constructor
    · intro hz
      simp [List.getElem?_map, hrow, hz]
    · intro hz
      simp [List.getElem?_map, hrow, hz]

/-- Witness for C2 at a concrete formula and table: the first sample's
denominator dot product is zero and yields the NaN marker, the second
yields the ratio. -/
theorem claim_C2_witness :
    ∃ vs, Spec.formulaC2.calcu_trait Spec.abTableC2 = .ok vs ∧
      vs.length = Spec.abTableC2.rows.length ∧
      ∀ (i : Nat) (row : List ℚ), Spec.abTableC2.rows[i]? = some row →
        (FormulaPy.dot row Spec.formulaC2.denominatorArray.values = 0 →
          vs[i]? = some none) ∧
        (FormulaPy.dot row Spec.formulaC2.denominatorArray.values ≠ 0 →
          vs[i]? = some (some (FormulaPy.dot row Spec.formulaC2.numeratorArray.values /
            FormulaPy.dot row Spec.formulaC2.denominatorArray.values))) :=
  claim_C2_calcu_trait_nan Spec.formulaC2 Spec.abTableC2 rfl rfl rfl

/-- C8: against a meta-property table column of boolean or categorical
dtype, a comparison term with an ordering operator evaluates to a
`FormulaError`; an equality or inequality comparison does not raise for
this reason (it returns the comparison series); and a bare property term
naming such a column raises a `FormulaError` asking for a comparison. -/
theorem claim_C8_dtype_compatibility (tbl : FormulaPy.MetaPropertyTable)
    (mp : String) (op : FormulaPy.CmpOp) (v : FormulaPy.TermValue)
    (col : FormulaPy.MPCol)
    (hcol : FormulaPy.lookupCol tbl mp = some col)
    (hbc : col.isBoolOrCat = true) :
    (op.isOrdering = true →
      FormulaPy.evalTerm (.compare mp op v) tbl =
        .error (.formulaError "Cannot use an ordering operator with this meta property.")) ∧
    ((op = .eq ∨ op = .ne) →
      FormulaPy.evalTerm (.compare mp op v) tbl = .ok (col.cmpSeries op v)) ∧
    FormulaPy.evalTerm (.numerical mp) tbl =
      .error (.formulaError "this dtype must be compared with a value.") := by
  refine ⟨?_, ?_, ?_⟩
  · intro hop
    simp [FormulaPy.evalTerm, hcol, hbc, hop]
  · intro hop
    have hno : op.isOrdering = false := by
      rcases hop with h | h <;> subst h <;> rfl
    simp [FormulaPy.evalTerm, hcol, hno]
  · cases col with
    | numeric vs => simp [FormulaPy.MPCol.isBoolOrCat] at hbc
    | boolean vs => simp [FormulaPy.evalTerm, hcol]
    | category vs => simp [FormulaPy.evalTerm, hcol]

/-- Witness for C8 at a concrete categorical column: `<` raises the
formula error, `==` evaluates to a series, the bare property term
raises. -/
theorem claim_C8_witness :
    (FormulaPy.evalTerm (.compare "gtype" .lt (.vstr "hybrid")) Spec.tblC8 =
      .error (.formulaError "Cannot use an ordering operator with this meta property.")) ∧
    (FormulaPy.evalTerm (.compare "gtype" .eq (.vstr "complex")) Spec.tblC8 =
      .ok ((FormulaPy.MPCol.category ["complex"]).cmpSeries .eq (.vstr "complex"))) ∧
    FormulaPy.evalTerm (.numerical "gtype") Spec.tblC8 =
      .error (.formulaError "this dtype must be compared with a value.") :=
  ⟨(claim_C8_dtype_compatibility Spec.tblC8 "gtype" .lt (.vstr "hybrid")
      (FormulaPy.MPCol.category ["complex"]) rfl rfl).1 rfl,
   (claim_C8_dtype_compatibility Spec.tblC8 "gtype" .eq (.vstr "complex")
      (FormulaPy.MPCol.category ["complex"]) rfl rfl).2.1 (Or.inl rfl),
   (claim_C8_dtype_compatibility Spec.tblC8 "gtype" .eq (.vstr "complex")
      (FormulaPy.MPCol.category ["complex"]) rfl rfl).2.2⟩

theorem exceptBind_ok {ε α β : Type} (a : α) (f : α → Except ε β) :
    (Except.ok a >>= f) = f a := rfl

theorem exceptBind_err {ε α β : Type} (e : ε) (f : α → Except ε β) :
    ((Except.error e : Except ε α) >>= f) = Except.error e := rfl

theorem zipWith_map_fun {α : Type} (l : List α) (g h : α → ℚ) (f : ℚ → ℚ → ℚ) :
    List.zipWith f (l.map g) (l.map h) = l.map (fun x => f (g x) (h x)) := by
  induction l with
  | nil => rfl
  | cons a t ih => simp [ih]

theorem seriesProd_append (n : Nat) (a b : List (List ℚ)) :
    FormulaPy.seriesProd n (a ++ b) =
      List.zipWith (· * ·) (FormulaPy.seriesProd n a) (FormulaPy.seriesProd n b) := by
  unfold FormulaPy.seriesProd
  rw [zipWith_map_fun]
  simp only [List.map_append, List.prod_append]

theorem evalTerms_append (a b : List FormulaPy.FormulaTerm)
    (tbl : FormulaPy.MetaPropertyTable) (ca cb : List (List ℚ))
    (ha : FormulaPy.evalTerms a tbl = .ok ca)
    (hb : FormulaPy.evalTerms b tbl = .ok cb) :
    FormulaPy.evalTerms (a ++ b) tbl = .ok (ca ++ cb) := by
  induction a generalizing ca with
  | nil =>
    simp [FormulaPy.evalTerms] at ha
    subst ha
    simpa using hb
  | cons t ts ih =>
    cases hc : FormulaPy.evalTerm t tbl with
    | error e => simp [FormulaPy.evalTerms, hc, exceptBind_err] at ha
    | ok c =>
      cases hcs : FormulaPy.evalTerms ts tbl with
      | error e => simp [FormulaPy.evalTerms, hc, hcs, exceptBind_ok, exceptBind_err] at ha
      | ok cs =>
        simp [FormulaPy.evalTerms, hc, hcs, exceptBind_ok] at ha
        subst ha
        simp [FormulaPy.evalTerms, hc, exceptBind_ok, ih cs hcs]

/-- C4: for an expression whose splitter is `//`, the parsed numerator
term list is the numerator's own terms followed by all denominator terms,
so the initialized numerator weight vector is the elementwise product of
the numerator-term product and the denominator-term product; the
denominator list is its own terms alone, and a plain `/` expression adds
nothing to the numerator. -/
theorem claim_C4_double_slash_union (expr name numE denE : String)
    (nums dens : List FormulaPy.FormulaTerm) (tbl : FormulaPy.MetaPropertyTable)
    (numCols denCols : List (List ℚ))
    (hnum : FormulaPy._parse_terms numE = .ok nums)
    (hden : FormulaPy._parse_terms denE = .ok dens)
    (hnc : FormulaPy.evalTerms nums tbl = .ok numCols)
    (hdc : FormulaPy.evalTerms dens tbl = .ok denCols) :
    (FormulaPy._split_formula_expression expr = .ok (name, numE, "//", denE) →
      FormulaPy._parse_formula_expression expr = .ok (name, nums ++ dens, dens) ∧
      FormulaPy._initialize tbl (nums ++ dens) =
        .ok (List.zipWith (· * ·)
              (FormulaPy.seriesProd tbl.index.length numCols)
              (FormulaPy.seriesProd tbl.index.length denCols))) ∧
    (FormulaPy._split_formula_expression expr = .ok (name, numE, "/", denE) →
      FormulaPy._parse_formula_expression expr = .ok (name, nums, dens)) := by
  constructor
  · intro hsplit
    constructor
    · simp [FormulaPy._parse_formula_expression, hsplit, hnum, hden, exceptBind_ok]
    · simp [FormulaPy._initialize, evalTerms_append nums dens tbl numCols denCols hnc hdc,
        exceptBind_ok, seriesProd_append]
  · intro hsplit
    simp [FormulaPy._parse_formula_expression, hsplit, hnum, hden, exceptBind_ok]

/-- Witness for C4 on the expression `T = (isComplex) // (isHighMannose)`
over a concrete numeric table. -/
theorem claim_C4_witness :
    FormulaPy._parse_formula_expression "T = (isComplex) // (isHighMannose)" =
      .ok ("T", [.numerical "isComplex"] ++ [.numerical "isHighMannose"],
           [.numerical "isHighMannose"]) ∧
    FormulaPy._initialize Spec.mpTableC4
        ([.numerical "isComplex"] ++ [.numerical "isHighMannose"]) =
      .ok (List.zipWith (· * ·)
            (FormulaPy.seriesProd Spec.mpTableC4.index.length [[1, 0]])
            (FormulaPy.seriesProd Spec.mpTableC4.index.length [[0, 1]])) :=
  (claim_C4_double_slash_union "T = (isComplex) // (isHighMannose)" "T"
    "(isComplex)" "(isHighMannose)" [.numerical "isComplex"]
    [.numerical "isHighMannose"] Spec.mpTableC4 [[1, 0]] [[0, 1]]
    rfl rfl rfl rfl).1 rfl

/-- C5: `load_formulas` starts from the built-in list, appends a user
formula exactly when its name collides with no built-in name (a collision
silently drops the user definition, no error), and — unless sia-linkage
was requested — removes every formula whose sia-linkage flag is set,
built-in or user. -/
theorem claim_C5_loading_policy (defaults : List FormulaPy.TraitFormula)
    (lines : List String) (sia : Bool) (userFs : List FormulaPy.TraitFormula)
    (h : FormulaPy.load_formulas_from_file lines = .ok userFs) :
    FormulaPy.load_formulas defaults (some lines) sia =
      .ok ((defaults ++ userFs.filter
            (fun f => !((defaults.map (fun g => g.name)).contains f.name))).filter
          (fun f => sia || !f.siaLinkage)) := by
  cases sia with
  | true => simp [FormulaPy.load_formulas, h, exceptBind_ok]
  | false => simp [FormulaPy.load_formulas, h, exceptBind_ok]

/-- Witness for C5: one built-in named `A`, a user file defining `A`
(silently dropped) and `C` (appended); no sia-linkage formulas occur, so
the sia filter keeps both. -/
theorem claim_C5_witness :
    FormulaPy.load_formulas [Spec.builtinC5] (some Spec.userLinesC5) false =
      .ok [Spec.builtinC5, Spec.userC5] := by
  have h := claim_C5_loading_policy [Spec.builtinC5] Spec.userLinesC5 false
    [Spec.userA5, Spec.userC5] rfl
  rw [h]
  rfl

theorem loadRecords_dup (records : List (String × String)) :
    ∀ (seen : List String) (fs : List FormulaPy.TraitFormula),
      Spec.parseRecords records = .ok fs →
      (¬ (fs.map (fun f => f.name)).Nodup ∨ ∃ f ∈ fs, f.name ∈ seen) →
      ∃ n, FormulaPy.loadFromRecords records seen =
        .error (.formulaError ("Duplicate formula name: " ++ n ++ ".")) := by
  induction records with
  | nil =>
    intro seen fs hmapM hbad
    simp [Spec.parseRecords] at hmapM
    subst hmapM
    simp at hbad
  | cons r rest ih =>
    intro seen fs hmapM hbad
    obtain ⟨d, e⟩ := r
    cases hf : FormulaPy.mkTraitFormula e d with
    | error err => simp [Spec.parseRecords, hf, exceptBind_err] at hmapM
    | ok f0 =>
      cases hrest : Spec.parseRecords rest with
      | error err => simp [Spec.parseRecords, hf, hrest, exceptBind_ok, exceptBind_err] at hmapM
      | ok fs' =>
        have hfs : fs = f0 :: fs' := by
          simp [Spec.parseRecords, hf, hrest, exceptBind_ok] at hmapM
          exact hmapM.symm
        subst hfs
        by_cases hseen : seen.contains f0.name
        · refine ⟨f0.name, ?_⟩
          have hmem : f0.name ∈ seen := List.elem_iff.mp hseen
          simp [FormulaPy.loadFromRecords, hf, exceptBind_ok, hmem]
        · have hmem : f0.name ∉ seen := fun hm => hseen (List.elem_iff.mpr hm)
          have hbad' : ¬ (fs'.map (fun f => f.name)).Nodup ∨
              ∃ f ∈ fs', f.name ∈ (f0.name :: seen) := by
            rcases hbad with hnd | ⟨f, hmemf, hin⟩
            · rw [List.map_cons, List.nodup_cons] at hnd
              by_cases hmem0 : f0.name ∈ fs'.map (fun f => f.name)
              · rcases List.mem_map.mp hmem0 with ⟨f, hf', hname⟩
                exact Or.inr ⟨f, hf', by rw [hname]; exact List.mem_cons_self _ _⟩
              · exact Or.inl (fun hnd' => hnd ⟨hmem0, hnd'⟩)
            · rcases List.mem_cons.mp hmemf with rfl | hmem'
              · exact absurd hin hmem
              · exact Or.inr ⟨f, hmem', List.mem_cons_of_mem _ hin⟩
          obtain ⟨n, hn⟩ := ih (f0.name :: seen) fs' hrest hbad'
          refine ⟨n, ?_⟩
          simp [FormulaPy.loadFromRecords, hf, exceptBind_ok, hmem, hn, exceptBind_err]

/-- C6: a formula file whose records (all of them parseable) contain two
formulas with the same name makes `load_formulas_from_file` raise a
`FormulaError`; since the result is an error, no formula list is returned
to the caller. -/
theorem claim_C6_duplicate_name (lines : List String)
    (records : List (String × String)) (fs : List FormulaPy.TraitFormula)
    (hdec : FormulaPy.deconvolute_formula_file lines = .ok records)
    (hparse : Spec.parseRecords records = .ok fs)
    (hdup : ¬ (fs.map (fun f => f.name)).Nodup) :
    ∃ n, FormulaPy.load_formulas_from_file lines =
      .error (.formulaError ("Duplicate formula name: " ++ n ++ ".")) := by
  obtain ⟨n, hn⟩ := loadRecords_dup records [] fs hparse (Or.inl hdup)
  refine ⟨n, ?_⟩
  simp [FormulaPy.load_formulas_from_file, hdec, hn, exceptBind_ok]

/-- Witness for C6 on a concrete file defining the name `A` twice. -/
theorem claim_C6_witness :
    ∃ n, FormulaPy.load_formulas_from_file Spec.linesC6 =
      .error (.formulaError ("Duplicate formula name: " ++ n ++ ".")) :=
  claim_C6_duplicate_name Spec.linesC6
    [("d1", "A = (totalMan) / (totalSia)"), ("d2", "A = (totalFuc) / (totalSia)")]
    [Spec.fA1, Spec.fA2] rfl rfl (by decide)

/-- C7: the reserved property `.` evaluates to the all-ones weight vector;
it never passes the numerator validator at all (so in particular it is
never combined with other numerator terms), and in the denominator it is
rejected whenever any other property accompanies it; a successfully
constructed formula therefore has `.` only as the sole denominator
property. -/
theorem claim_C7_dot_property :
    (∀ tbl : TraitPy.MetaTable,
       TraitPy._initialize tbl ["."] = List.replicate tbl.index.length 1) ∧
    (∀ desc name np dp (c : ℚ), np.contains "." = true →
       Spec.isOkB (TraitPy.mkTraitFormula desc name np dp c) = false) ∧
    (∀ desc name np dp (c : ℚ), dp.contains "." = true → dp.length > 1 →
       Spec.isOkB (TraitPy.mkTraitFormula desc name np dp c) = false) ∧
    (∀ desc name np dp (c : ℚ) f, TraitPy.mkTraitFormula desc name np dp c = .ok f →
       np.contains "." = false ∧ (dp.contains "." = true → dp = ["."])) := by
  refine ⟨?_, ?_, ?_, ?_⟩
  · intro tbl
    simp [TraitPy._initialize]
  · intro desc name np dp c hc
    unfold TraitPy.mkTraitFormula
    split_ifs <;> simp_all [Spec.isOkB]
  · intro desc name np dp c hc hlen
    unfold TraitPy.mkTraitFormula
    split_ifs <;> simp_all [Spec.isOkB]
  · intro desc name np dp c f h
    unfold TraitPy.mkTraitFormula at h
    split_ifs at h with h1 h2 h3 h4 h5 h6 h7
    constructor
    · simpa using h3
    · intro hdp
      have h6' : ¬(dp.contains "." && decide (dp.length > 1)) = true := by simpa using h6
      rw [hdp] at h6'
      simp at h6'
      cases dp with
      | nil => simp at hdp
      | cons a t =>
        cases t with
        | nil =>
          have ha : "." = a := by simpa using List.elem_iff.mp hdp
          rw [← ha]
        | cons b t' => simp at h6'

/-- Witness for C7: `["."]` initializes to the ones vector over a
two-glycan index; `.` in the numerator and `.` combined with another
denominator property are both rejected; and a formula constructed with
denominator `["."]` indeed has no `.` in the numerator and `.` alone in
the denominator. -/
theorem claim_C7_witness :
    TraitPy._initialize ⟨["g1", "g2"], []⟩ ["."] = List.replicate 2 1 ∧
    Spec.isOkB (TraitPy.mkTraitFormula "d" "T" [".", "totalMan"] ["totalSia"] 1) = false ∧
    Spec.isOkB (TraitPy.mkTraitFormula "d" "T" ["totalMan"] [".", "totalSia"] 1) = false ∧
    (["totalMan"].contains "." = false ∧ (["."].contains "." = true → ["."] = ["."])) :=
  ⟨claim_C7_dot_property.1 ⟨["g1", "g2"], []⟩,
   claim_C7_dot_property.2.1 "d" "T" [".", "totalMan"] ["totalSia"] 1 (by decide),
   claim_C7_dot_property.2.2.1 "d" "T" ["totalMan"] [".", "totalSia"] 1 (by decide) (by decide),
   claim_C7_dot_property.2.2.2 "d" "T" ["totalMan"] ["."] 1
     { description := "d", name := "T",
       numerator_properties := ["totalMan"], denominator_properties := ["."],
       coefficient := 1, siaLinkage := false, initialized := false,
       numerator := [], denominator := [] } (by rfl)⟩

/-- C9: a coefficient that is not strictly positive fails `trait.py`
formula construction; a parsed expression without a `") *"` suffix gets
coefficient 1; the coefficient can be written as a fraction `a/b` or a
decimal; and when no sample's denominator is zero, every `calcu_trait`
value is the numerator/denominator ratio times the coefficient. -/
theorem claim_C9_coefficient :
    (∀ desc name np dp (c : ℚ), c ≤ 0 →
       Spec.isOkB (TraitPy.mkTraitFormula desc name np dp c) = false) ∧
    (∀ expr res, TraitPy._parse_expression expr = .ok res →
       Py.contains expr ") *" = false → res.2.2.2 = 1) ∧
    (TraitPy._parse_expression "A = (totalFuc) / (totalSia) * 2/3" =
       .ok ("A", ["totalFuc"], ["totalSia"], ((2 : ℕ) : ℚ) / ((3 : ℕ) : ℚ))) ∧
    (TraitPy._parse_expression "B = (totalMan) / (totalSia) * 1.5" =
       .ok ("B", ["totalMan"], ["totalSia"],
            ((1 : ℕ) : ℚ) + ((5 : ℕ) : ℚ) / ((10 : ℚ) ^ (1 : ℕ)))) ∧
    (∀ (f : TraitPy.TraitFormula) (rows : List (List ℚ)),
       f.initialized = true →
       (rows.all (fun r => !(FormulaPy.dot r f.denominator == 0))) = true →
       f.calcu_trait rows = .ok (rows.map (fun r =>
         FormulaPy.dot r f.numerator / FormulaPy.dot r f.denominator * f.coefficient))) := by
  refine ⟨?_, ?_, ?_, ?_, ?_⟩
  · intro desc name np dp c hc
    unfold TraitPy.mkTraitFormula
    split_ifs <;> simp_all [Spec.isOkB]
  · intro expr res h hnc
    unfold TraitPy._parse_expression at h
    rw [hnc] at h
    simp only [Bool.false_eq_true, if_false] at h
    split at h
    · simp at h
    · split at h
      · simp at h
      · simp at h
        rw [← h]
  · rfl
  · rfl
  · intro f rows hinit hall
    unfold TraitPy.TraitFormula.calcu_trait
    rw [hinit]
    have hz : (rows.map (fun r => FormulaPy.dot r f.denominator)).any
        (fun d => d == 0) = false := by
      simp only [List.any_eq_false, List.mem_map]
      rintro d ⟨r, hr, rfl⟩
      have := (List.all_eq_true.mp hall) r hr
      simpa using this
    simp only [hz, Bool.not_true, Bool.false_eq_true, if_false, Bool.not_false, if_true]
    rw [zipWith_map_fun]

/-- Witness for C9: coefficient 0 is rejected; a concrete suffix-free
expression parses with coefficient 1; and a concrete initialized formula
with coefficient 3 multiplies the ratio for a concrete one-sample table. -/
theorem claim_C9_witness :
    Spec.isOkB (TraitPy.mkTraitFormula "d" "T" ["totalMan"] ["totalSia"] 0) = false ∧
    ("MHy", ["isHighMannose"], ["isComplex"], (1 : ℚ)).2.2.2 = 1 ∧
    Spec.formulaC9.calcu_trait [[1]] = .ok ([[(1 : ℚ)]].map (fun r =>
      FormulaPy.dot r Spec.formulaC9.numerator /
        FormulaPy.dot r Spec.formulaC9.denominator * Spec.formulaC9.coefficient)) :=
  ⟨claim_C9_coefficient.1 "d" "T" ["totalMan"] ["totalSia"] 0 (by norm_num),
   claim_C9_coefficient.2.1 "MHy = (isHighMannose) / (isComplex)"
     ("MHy", ["isHighMannose"], ["isComplex"], (1 : ℚ)) rfl rfl,
   claim_C9_coefficient.2.2.2.2 Spec.formulaC9 [[1]] rfl (by
     simp only [Spec.formulaC9, FormulaPy.dot, List.all_cons, List.all_nil,
       List.zipWith_cons_cons, List.zipWith_nil_right, List.sum_cons, List.sum_nil,
       Bool.and_true, Bool.not_eq_true', beq_eq_false_iff_ne, ne_eq]
     norm_num)⟩

theorem collectAux_cons_hit (p : Glycan.GTree × Bool) (rest : List (Glycan.GTree × Bool))
    (acc : List String)
    (hm : Glycan.monoName p.1.comp = Glycan.shouldBe.getD acc.length "") :
    Glycan.collectCoresAux (p :: rest) acc =
      (if (acc ++ [Glycan.monoName p.1.comp]).length = 5 then
        acc ++ [Glycan.monoName p.1.comp]
      else Glycan.collectCoresAux rest (acc ++ [Glycan.monoName p.1.comp])) := by
  simp [Glycan.collectCoresAux, hm]

theorem collectAux_cons_miss (p : Glycan.GTree × Bool) (rest : List (Glycan.GTree × Bool))
    (acc : List String)
    (hm : ¬ Glycan.monoName p.1.comp = Glycan.shouldBe.getD acc.length "") :
    Glycan.collectCoresAux (p :: rest) acc =
      (if acc.length = 5 then acc else Glycan.collectCoresAux rest acc) := by
  simp only [Glycan.collectCoresAux, if_neg hm]

theorem collectAux_spec (l : List (Glycan.GTree × Bool)) :
    ∀ acc : List String, acc = Glycan.shouldBe.take acc.length → acc.length < 5 →
      ∃ k, Glycan.collectCoresAux l acc = Glycan.shouldBe.take k ∧ k ≤ 5 ∧
        k ≤ acc.length + l.length := by
  have key : ∀ n, n < 5 → Glycan.shouldBe.take (n + 1) =
      Glycan.shouldBe.take n ++ [Glycan.shouldBe.getD n ""] := by decide
  induction l with
  | nil =>
    intro acc hacc hlen
    exact ⟨acc.length, by simpa [Glycan.collectCoresAux] using hacc, by omega, by omega⟩
  | cons p rest ih =>
    intro acc hacc hlen
    by_cases hm : Glycan.monoName p.1.comp = Glycan.shouldBe.getD acc.length ""
    · have hacc' : acc ++ [Glycan.monoName p.1.comp] =
          Glycan.shouldBe.take (acc.length + 1) := by
        rw [hm, key acc.length hlen, ← hacc]
      by_cases h5 : (acc ++ [Glycan.monoName p.1.comp]).length = 5
      · refine ⟨acc.length + 1, ?_, ?_, ?_⟩
        · rw [collectAux_cons_hit p rest acc hm, if_pos h5]
          exact hacc'
        · have h5' : acc.length + 1 = 5 := by simpa using h5
          omega
        · simp only [List.length_cons]
          omega
      · have hlen' : (acc ++ [Glycan.monoName p.1.comp]).length < 5 := by
          simp at h5 ⊢; omega
        obtain ⟨k, hk, hk5, hkb⟩ := ih (acc ++ [Glycan.monoName p.1.comp])
          (by simpa using hacc') hlen'
        refine ⟨k, ?_, hk5, ?_⟩
        · rw [collectAux_cons_hit p rest acc hm, if_neg h5]
          exact hk
        · have hkb' : k ≤ acc.length + 1 + rest.length := by simpa using hkb
          simp only [List.length_cons]
          omega
    · have hne : ¬ acc.length = 5 := by omega
      obtain ⟨k, hk, hk5, hkb⟩ := ih acc hacc hlen
      refine ⟨k, ?_, hk5, ?_⟩
      · rw [collectAux_cons_miss p rest acc hm, if_neg hne]
        exact hk
      · simp only [List.length_cons]
        omega

theorem collectCores_core (t : Glycan.GTree) :
    ∃ k, Glycan.collectCores t = Glycan.shouldBe.take k ∧ k ≤ 5 ∧
      k ≤ (Glycan.traversal ["Fuc"] t).length := by
  obtain ⟨k, hk, hk5, hkb⟩ := collectAux_spec (Glycan.traversal ["Fuc"] t) [] rfl (by decide)
  exact ⟨k, hk, hk5, by simpa using hkb⟩

theorem checkCores_take (k : Nat) (hk : k ≤ 5) :
    (Glycan.checkCores (Glycan.shouldBe.take k) = true) ↔ k = 5 := by
  interval_cases k <;> decide

theorem multiset_take (k : Nat) (hk : k ≤ 5) :
    ((Glycan.shouldBe.take k : List String) : Multiset String) =
      ({"Glc2NAc", "Glc2NAc", "Man", "Man", "Man"} : Multiset String) ↔ k = 5 := by
  interval_cases k <;> decide

theorem valid_traversal_length (t : Glycan.GTree) (h : Glycan.validCores t = true) :
    5 ≤ (Glycan.traversal ["Fuc"] t).length := by
  obtain ⟨k, hk, hk5, hkb⟩ := collectCores_core t
  rw [Glycan.validCores, hk] at h
  have := (checkCores_take k hk5).mp h
  omega

/-- C1: for every glycan whose construction succeeded (core validation
passed), the `type` property agrees with the claim's priority-ordered
classification: bare-core composition → Complex, else bisecting (third
fucose-skipping-BFS node with exactly 4 links) → Complex, else two
GlcNAc → HighMannose, else a single-link node among BFS positions four
and five → Complex, else three GlcNAc → Hybrid, else Complex. -/
theorem claim_C1_type_priority (t : Glycan.GTree) (h : Glycan.validCores t = true) :
    Glycan.typeOf t = some (Glycan.claimTypeOf t) := by
  have hlen := valid_traversal_length t h
  rcases hns : Glycan.traversal ["Fuc"] t with _ | ⟨n0, _ | ⟨n1, _ | ⟨n2, _ | ⟨n3, _ | ⟨n4, rest⟩⟩⟩⟩⟩ <;>
    rw [hns] at hlen <;> simp at hlen
  simp only [Glycan.typeOf, Glycan.claimTypeOf, Glycan.isBisecting, hns]
  by_cases h1 : Glycan.compositionEqCore t = true
  · simp [h1]
  · cases hb : Glycan.linkCount n2 == 4 with
    | true =>
      simp only [Bool.not_eq_true] at h1
      simp [h1, hb, beq_iff_eq.mp hb]
    | false =>
      have hb' : ¬ Glycan.linkCount n2 = 4 := by simpa using hb
      simp only [Bool.not_eq_true] at h1
      by_cases h3 : Glycan.cnt .glc2NAc t = 2
      · simp [h1, hb, hb', h3]
      · by_cases h4 : Glycan.linkCount n3 = 1 ∨ Glycan.linkCount n4 = 1
        · simp [h1, hb, hb', h3, h4]
        · by_cases h5 : Glycan.cnt .glc2NAc t = 3
          · simp [h1, hb, hb', h3, h4, h5]
          · simp [h1, hb, hb', h3, h4, h5]

/-- Witness for C1: the bare-core glycan passes validation and its `type`
agrees with the claim's classification (both Complex). -/
theorem claim_C1_witness :
    Glycan.validCores Spec.coreTree = true ∧
    Glycan.typeOf Spec.coreTree = some (Glycan.claimTypeOf Spec.coreTree) :=
  ⟨by decide, claim_C1_type_priority Spec.coreTree (by decide)⟩

/-- C3: `from_string` fails with `StructureParseError` exactly when the
external parser rejects the notation; when the notation parses but the
five collected core candidates do not form the multiset
{GlcNAc, GlcNAc, Man, Man, Man}, construction fails with the distinct
core-validation error; and a glycan is only ever constructed when the
collected candidates form exactly that multiset. -/
theorem claim_C3_core_validation (parse : String → Option Glycan.GTree) (s : String) :
    (parse s = none → Glycan.fromString parse s = .error (.parseError s)) ∧
    (∀ t, parse s = some t →
      (((Glycan.collectCores t : List String) : Multiset String) ≠
          ({"Glc2NAc", "Glc2NAc", "Man", "Man", "Man"} : Multiset String) →
        Glycan.fromString parse s = .error (.invalidCore (Glycan.collectCores t))) ∧
      (∀ g, Glycan.fromString parse s = .ok g →
        ((Glycan.collectCores t : List String) : Multiset String) =
          ({"Glc2NAc", "Glc2NAc", "Man", "Man", "Man"} : Multiset String))) := by
  constructor
  · intro h
    simp [Glycan.fromString, h]
  · intro t ht
    obtain ⟨k, hk, hk5, -⟩ := collectCores_core t
    have hchk := checkCores_take k hk5
    have hms := multiset_take k hk5
    constructor
    · intro hne
      have hk5' : ¬ k = 5 := fun h5 => hne (by rw [hk]; exact hms.mpr h5)
      have hcc : Glycan.checkCores (Glycan.collectCores t) = false := by
        rw [hk]
        cases hcase : Glycan.checkCores (Glycan.shouldBe.take k) with
        | true => exact absurd (hchk.mp hcase) hk5'
        | false => rfl
      simp [Glycan.fromString, ht, Glycan.mkNGlycan, hcc]
    · intro g hg
      simp only [Glycan.fromString, ht, Glycan.mkNGlycan] at hg
      by_cases hcc : Glycan.checkCores (Glycan.collectCores t) = true
      · rw [hk] at hcc
        rw [hk]
        exact hms.mpr (hchk.mp hcc)
      · simp [hcc] at hg

/-- Witness for C3: a failing parse surfaces `StructureParseError`, and a
successful construction from the bare-core tree certifies the core
multiset. -/
theorem claim_C3_witness :
    Glycan.fromString (fun _ => none) "x" = .error (.parseError "x") ∧
    ((Glycan.collectCores Spec.coreTree : List String) : Multiset String) =
      ({"Glc2NAc", "Glc2NAc", "Man", "Man", "Man"} : Multiset String) :=
  ⟨(claim_C3_core_validation (fun _ => none) "x").1 rfl,
   ((claim_C3_core_validation (fun _ => some Spec.coreTree) "x").2 Spec.coreTree rfl).2
     ⟨Spec.coreTree, Glycan.shouldBe⟩ (by rfl)⟩
